import Mathlib

/-!
# Verification of the Crypto_Top_Five_Data_Visualization dashboard

Shallow embedding of `src/app_final.py`: a single-page Streamlit dashboard
that fetches market data from the CoinGecko API and renders three tabs
(candlestick charts, a bubble chart, a volume-share bar chart).

Modelling conventions:
* Monetary quantities and percentages are exact rationals (`ℚ`).
* A pandas `Timestamp` produced by `pd.to_datetime(_, unit="ms")` is its
  value in nanoseconds since the epoch (`ℤ`).
* A pandas `DataFrame` built from a list of records is modelled by its row
  list plus a `hasSchema` flag: `pd.DataFrame()` — and `pd.DataFrame([])`
  from an empty JSON array — has *no columns*, so column access on it
  raises `KeyError`.  Fallible Python operations return `Except PyError`.
* An HTTP call is modelled by the response it receives (`HttpResp`); the
  wrappers are functions of that response.
-/

namespace CryptoDash

/-- A Python-level exception that a page render can raise. -/
inductive PyError where
  | keyError (key : String)
  | indexError
deriving DecidableEq, Repr

/-- An HTTP response: status code plus decoded JSON body. -/
structure HttpResp (α : Type) where
  status : Nat
  json : α
deriving DecidableEq, Repr

/-- One record of the top-coins listing (`/coins/markets`), with the fields
the dashboard reads. -/
structure CoinRow where
  id : String
  name : String
  symbol : String
  current_price : ℚ
  market_cap : ℚ
  total_volume : ℚ
  price_change_percentage_24h : ℚ
deriving DecidableEq, Repr

/-- The Coin Summary frame `df_top5`.  `hasSchema = false` models a pandas
frame with no columns (`pd.DataFrame()` or `pd.DataFrame([])`), on which
column access raises `KeyError`. -/
structure TopFrame where
  rows : List CoinRow
  hasSchema : Bool
deriving DecidableEq, Repr

/-- Model of `pd.DataFrame(json)` for a list of records: columns exist
iff the record list is non-empty. -/
def TopFrame.ofRecords (rs : List CoinRow) : TopFrame :=
  ⟨rs, !rs.isEmpty⟩

/-- Model of `pd.DataFrame()`: empty, no columns. -/
def TopFrame.emptyFrame : TopFrame := ⟨[], false⟩

/-- Model of `df.empty`. -/
def TopFrame.isEmpty (df : TopFrame) : Bool := df.rows.isEmpty

/-- Column projection, `df[name]` (followed by `.tolist()` where the code
needs a list).  Raises `KeyError name` when the frame has no columns. -/
def TopFrame.col {α : Type} (df : TopFrame) (f : CoinRow → α) (name : String) :
    Except PyError (List α) :=
  if df.hasSchema then .ok (df.rows.map f) else .error (.keyError name)

/-- Model of `pd.to_datetime(t, unit="ms")`: an epoch-millisecond integer
becomes a timestamp whose value is `t` milliseconds, i.e. `t * 10^6`
nanoseconds. -/
def to_datetime_ms (t : ℤ) : ℤ := t * 1000000

/-- One row of the OHLC frame after timestamp conversion; the converted
timestamp is the frame's index. -/
structure OhlcPoint where
  timestamp : ℤ
  open_ : ℚ
  high : ℚ
  low : ℚ
  close : ℚ
deriving DecidableEq, Repr

/-- A raw OHLC JSON row `[timestamp_ms, open, high, low, close]`. -/
abbrev OhlcJsonRow : Type := ℤ × ℚ × ℚ × ℚ × ℚ

/-- Wrapper `get_ohlc_data` (src/app_final.py:39-51): on HTTP 200 builds the
OHLC frame with `pd.to_datetime(unit="ms")` applied to the timestamp
column, which becomes the index; on any other status returns
`pd.DataFrame()` (empty). -/
def get_ohlc_data (resp : HttpResp (List OhlcJsonRow)) : List OhlcPoint :=
  if resp.status = 200 then
    resp.json.map (fun r => ⟨to_datetime_ms r.1, r.2.1, r.2.2.1, r.2.2.2.1, r.2.2.2.2⟩)
  else []

/-- Wrapper `get_top_coins` (src/app_final.py:54-65): on HTTP 200 returns
`pd.DataFrame(response.json())`; on any other status `pd.DataFrame()`. -/
def get_top_coins (resp : HttpResp (List CoinRow)) : TopFrame :=
  if resp.status = 200 then TopFrame.ofRecords resp.json else TopFrame.emptyFrame

/-- The JSON body of `/market_chart`: the dashboard reads only `"prices"`,
a list of `[timestamp_ms, price]` pairs. -/
structure MarketChartJson where
  prices : List (ℤ × ℚ)
deriving DecidableEq, Repr

/-- A row of the historical-price frame after timestamp conversion. -/
structure PricePoint where
  timestamp : ℤ
  price : ℚ
deriving DecidableEq, Repr

/-- Wrapper `get_market_chart` (src/app_final.py:68-81): on HTTP 200 builds the
price frame from `data["prices"]` with converted, indexed timestamps;
on any other status returns `pd.DataFrame()` (empty). -/
def get_market_chart (resp : HttpResp MarketChartJson) : List PricePoint :=
  if resp.status = 200 then
    resp.json.prices.map (fun p => ⟨to_datetime_ms p.1, p.2⟩)
  else []

/-! ## Tab 2: bubble-chart colour assignment (src/app_final.py:155-157) -/

/-- The fixed five-colour palette `custom_colors`. -/
def custom_colors : List String :=
  ["#636EFA", "#EF553B", "#00CC96", "#AB63FA", "#FFA15A"]

/-- Indexing `custom_colors[i % len(custom_colors)]`. -/
def paletteColor (i : Nat) : String :=
  custom_colors.getD (i % custom_colors.length) ""

/-- The dict comprehension
`{coin: custom_colors[i % len(custom_colors)] for i, coin in enumerate(coin_ids)}`,
as its insertion-ordered entry list. -/
def buildColors (coin_ids : List String) : List (String × String) :=
  coin_ids.enum.map (fun p => (p.2, paletteColor p.1))

/-- Python dict lookup `colors[coin]`: the value of the *last* insertion of
the key (later comprehension entries overwrite earlier ones). -/
def dictGet (entries : List (String × String)) (k : String) : Option String :=
  (entries.reverse.find? (fun e => e.1 = k)).map (fun e => e.2)

/-! ## Tab 3: volume-share computation (src/app_final.py:203-205) -/

/-- The expression `(df_top5["total_volume"] / df_top5["total_volume"].sum()) * 100`:
the elementwise volume-share percentages of a volume column. -/
def percentShare (vols : List ℚ) : List ℚ :=
  vols.map (fun v => v / vols.sum * 100)

/-- A Coin Summary row after the `df_top5["percent"] = ...` assignment:
the original record plus the added `percent` column. -/
structure CoinRowP where
  base : CoinRow
  percent : ℚ
deriving DecidableEq, Repr

/-- The frame `df_top5` as rebound by tab 3 (original columns plus
`percent`). -/
structure TopFrameP where
  rows : List CoinRowP
  hasSchema : Bool
deriving DecidableEq, Repr

/-- Formatting to two decimal places, as in the bar text at
src/app_final.py:215, modelled as rational rounding.  (The realistic inputs
are never exact half-way ties, where binary-float formatting could differ
from rational rounding.) -/
def round2 (x : ℚ) : ℚ := (round (x * 100) : ℤ) / 100

/-- Model of `df.sort_values(by="percent", ascending=False)`: sort the
augmented rows in descending order of `percent`. -/
def sort_values_percent_desc (rows : List CoinRowP) : List CoinRowP :=
  rows.insertionSort (fun a b => b.percent ≤ a.percent)

/-! ## The three tab renders and the page render -/

/-- What tab 1 (candlestick) shows: an info message, or one candlestick
chart per selected coin whose OHLC fetch came back non-empty. -/
inductive Tab1Out where
  | info (msg : String)
  | charts (specs : List (String × List OhlcPoint))
deriving DecidableEq, Repr

/-- The bubble-chart specification tab 2 hands to Plotly: the series the
`go.Scatter` call is built from. -/
structure BubbleSpec where
  x : List ℚ
  y : List ℚ
  text : List String
  markerSize : List ℚ
  sizeref : ℚ
  markerColor : List String
deriving DecidableEq, Repr

/-- What tab 2 (bubble chart) shows. -/
inductive Tab2Out where
  | info (msg : String)
  | chart (spec : BubbleSpec)
deriving DecidableEq, Repr

/-- The bar-chart specification tab 3 hands to Plotly. -/
structure BarSpec where
  x : List String
  y : List ℚ
  text : List ℚ
  markerColor : List String
deriving DecidableEq, Repr

/-- What tab 3 (volume-share bar chart) shows: the bar chart, or nothing
when the (post-sort) frame is empty. -/
inductive Tab3Out where
  | bar (spec : BarSpec)
  | nothing
deriving DecidableEq, Repr

/-- The environment a page render runs in: the responses the upstream API
gives to the top-coins request and to each per-coin OHLC request. -/
structure Env where
  topResp : HttpResp (List CoinRow)
  ohlcResp : String → Nat → HttpResp (List OhlcJsonRow)

/-- Tab 1 (src/app_final.py:113-143): for each selected coin fetch OHLC
data and emit a candlestick chart unless the fetch came back empty; with
no selection, show the info message. -/
def renderTab1 (env : Env) (coin_choice : List String) (days : Nat) : Tab1Out :=
  if coin_choice.isEmpty then
    .info "Please select at least one coin to see candlestick chart."
  else
    .charts (coin_choice.filterMap (fun c =>
      let df_ohlc := get_ohlc_data (env.ohlcResp c days)
      if df_ohlc.isEmpty then none else some (c, df_ohlc)))

/-- Tab 2 (src/app_final.py:146-199): filter `df_top5` to the selected
coins, assign palette colours, and build the bubble chart; with an empty
filtered frame, show the info message. -/
def renderTab2 (df_top5 : TopFrame) (coin_choice : List String) :
    Except PyError Tab2Out := do
  let _ ← df_top5.col (fun r => r.id) "id"
  let df_bubbles := df_top5.rows.filter (fun r => r.id ∈ coin_choice)
  if df_bubbles.isEmpty then
    return .info "Please select at least one coin to view bubble chart."
  else
    let coin_ids := df_bubbles.map (fun r => r.id)
    let colors := buildColors coin_ids
    let maxVol := (df_bubbles.map (fun r => r.total_volume)).foldr max 0
    return .chart
      { x := df_bubbles.map (fun r => r.market_cap)
        y := df_bubbles.map (fun r => r.current_price)
        text := df_bubbles.map (fun r => r.symbol.toUpper)
        markerSize := df_bubbles.map (fun r => r.total_volume)
        sizeref := 2 * maxVol / (100 * 100)
        markerColor := coin_ids.map (fun c => (dictGet colors c).getD "") }

/-- The `df_top5["percent"] = ...` assignment (src/app_final.py:204):
pair each row with its volume-share percentage. -/
def addPercent (rows : List CoinRow) : List CoinRowP :=
  (rows.zip (percentShare (rows.map (fun r => r.total_volume)))).map
    (fun p => CoinRowP.mk p.1 p.2)

/-- The series handed to `go.Bar` (src/app_final.py:212-219). -/
def barSpecOf (sorted : List CoinRowP) (coin_choice : List String) : BarSpec :=
  { x := sorted.map (fun r => r.base.name)
    y := sorted.map (fun r => r.percent)
    text := sorted.map (fun r => round2 r.percent)
    markerColor := sorted.map (fun r =>
      if r.base.id ∈ coin_choice then "steelblue" else "lightgray") }

/-- Tab 3 (src/app_final.py:202-228): add the `percent` column, sort
descending by it (rebinding `df_top5`), and build the bar chart when the
frame is non-empty.  Returns the rebound frame together with the output. -/
def renderTab3 (df_top5 : TopFrame) (coin_choice : List String) :
    Except PyError (TopFrameP × Tab3Out) := do
  let _vols ← df_top5.col (fun r => r.total_volume) "total_volume"
  let sorted := sort_values_percent_desc (addPercent df_top5.rows)
  let df_top5P : TopFrameP := ⟨sorted, true⟩
  if sorted.isEmpty then
    return (df_top5P, .nothing)
  else
    return (df_top5P, .bar (barSpecOf sorted coin_choice))

/-- Everything one page render displays. -/
structure PageOut where
  sidebarRows : List CoinRow
  options : List String
  coin_choice : List String
  tab1 : Tab1Out
  tab2 : Tab2Out
  tab3 : Tab3Out
  finalFrame : TopFrameP
deriving Repr

/-- First element, `df_top5["id"].tolist()[0]`: the multiselect's
default, raising `IndexError` on an empty list. -/
def headE (l : List String) : Except PyError String :=
  match l with
  | [] => .error .indexError
  | x :: _ => .ok x

/-- The full top-to-bottom page render (src/app_final.py:84-228).
`select` models the user's interaction with the multiselect: it maps the
offered options to the chosen coin ids.  The sidebar metrics block is
guarded by `if not df_top5.empty`; the multiselect options
`df_top5["id"].tolist()` are not. -/
def renderPage (env : Env) (select : List String → List String) (days : Nat) :
    Except PyError PageOut := do
  let df_top5 := get_top_coins env.topResp
  let sidebarRows := if df_top5.isEmpty then [] else df_top5.rows
  let options ← df_top5.col (fun r => r.id) "id"
  let _default ← headE options
  let coin_choice := select options
  let t1 := renderTab1 env coin_choice days
  let t2 ← renderTab2 df_top5 coin_choice
  let (df_top5P, t3) ← renderTab3 df_top5 coin_choice
  return ⟨sidebarRows, options, coin_choice, t1, t2, t3, df_top5P⟩

/-! ## The HTTP requests a render issues -/

/-- The three CoinGecko endpoints the module can call. -/
inductive Request where
  | topCoins (n : Nat)
  | ohlc (coin : String) (days : Nat)
  | marketChart (coin : String) (days : Nat)
deriving DecidableEq, Repr

/-- The sequence of HTTP requests one page render issues, in program
order: `get_top_coins(5)` at line 88, then — provided the render survives
the multiselect and its default — one `get_ohlc_data(c, days)` per
selected coin in the tab-1 loop.  `get_market_chart` is defined at lines
68-81 but called nowhere. -/
def renderRequests (env : Env) (select : List String → List String) (days : Nat) :
    List Request :=
  Request.topCoins 5 ::
    (match (get_top_coins env.topResp).col (fun r => r.id) "id" with
     | .error _ => []
     | .ok options =>
       if options.isEmpty then []
       else (select options).map (fun c => Request.ohlc c days))

/-! ## Projections and concrete fixtures -/

/-- Extract the bar-chart specification from a tab-3 result, when one was
produced. -/
def tab3Spec (r : Except PyError (TopFrameP × Tab3Out)) : Option BarSpec :=
  match r with
  | .ok (_, Tab3Out.bar spec) => some spec
  | _ => none

/-- The id column of the frame as rebound by tab 3 (empty on error). -/
def tab3Ids (r : Except PyError (TopFrameP × Tab3Out)) : List String :=
  match r with
  | .ok (fr, _) => fr.rows.map (fun row => row.base.id)
  | .error _ => []

/-- A concrete Coin Summary row. -/
def mkRow (i nm : String) (vol : ℚ) : CoinRow :=
  ⟨i, nm, i, 1, 1, vol, 0⟩

/-- The spec's worked example: five coins with volumes 100..500. -/
def exRows5 : List CoinRow :=
  [mkRow "a" "A" 100, mkRow "b" "B" 200, mkRow "c" "C" 300,
   mkRow "d" "D" 400, mkRow "e" "E" 500]

/-- A two-coin summary set used to exhibit the tab-3 re-sort. -/
def exRows2 : List CoinRow := [mkRow "a" "A" 100, mkRow "b" "B" 200]

/-! ## Theorems -/

/-- C2: for each of the three endpoint wrappers, whenever the HTTP
response has a non-success status code (any code other than the sole
accepted 200), the wrapper returns the explicitly empty tabular result;
the wrappers are total functions, so no exception reaches the caller and
the empty result is the sole failure signal. -/
theorem wrappers_empty_on_non_success
    (r1 : HttpResp (List CoinRow)) (r2 : HttpResp (List OhlcJsonRow))
    (r3 : HttpResp MarketChartJson)
    (h1 : r1.status ≠ 200) (h2 : r2.status ≠ 200) (h3 : r3.status ≠ 200) :
    get_top_coins r1 = TopFrame.emptyFrame ∧ get_ohlc_data r2 = [] ∧
      get_market_chart r3 = [] := by
  refine ⟨?_, ?_, ?_⟩ <;>
    simp [get_top_coins, get_ohlc_data, get_market_chart, h1, h2, h3]

/-- Witness for C2 at HTTP 404 responses. -/
theorem wrappers_empty_on_non_success_witness :
    get_top_coins ⟨404, []⟩ = TopFrame.emptyFrame ∧
      get_ohlc_data ⟨404, []⟩ = [] ∧ get_market_chart ⟨404, ⟨[]⟩⟩ = [] :=
  wrappers_empty_on_non_success ⟨404, []⟩ ⟨404, []⟩ ⟨404, ⟨[]⟩⟩
    (by decide) (by decide) (by decide)

/-- C8: the millisecond-epoch-to-timestamp normalization preserves time
differences; in particular the inputs 1700000000000 and 1700003600000 land
exactly one hour (3600000 ms) apart, and in general a difference of `d`
milliseconds in input yields a difference of `d` milliseconds (as
nanosecond timestamps, `d * 10^6`). -/
theorem to_datetime_ms_preserves_differences :
    to_datetime_ms 1700003600000 - to_datetime_ms 1700000000000
        = 3600000 * 1000000 ∧
      ∀ a b : ℤ, to_datetime_ms a - to_datetime_ms b = (a - b) * 1000000 := by
  constructor
  · norm_num [to_datetime_ms]
  · intro a b
    simp [to_datetime_ms, sub_mul]

/-- C3, counterexample: a non-empty summary set on which the computed
volume-share percentages do not sum to 100 — a single coin whose
`total_volume` is 0 (the percentage is then 0/0, which exact rational
arithmetic evaluates with junk value 0, and float arithmetic to NaN;
either way the sum is not 100). -/
theorem percent_sum_counterexample :
    ([(0 : ℚ)] ≠ []) ∧ (percentShare [(0 : ℚ)]).sum ≠ 100 := by
  constructor
  · simp
  · norm_num [percentShare]

/-- Helper for C3: summing the elementwise shares factors through the
column sum. -/
theorem sum_map_share (S : ℚ) (l : List ℚ) :
    (l.map (fun v => v / S * 100)).sum = l.sum / S * 100 := by
  induction l with
  | nil => simp
  | cons a l ih => simp [ih, add_div, add_mul]

/-- C3 (amended): for every summary set whose volumes have a nonzero sum
(in particular every non-empty set of positive volumes), the volume-share
percentages computed by tab 3 sum to exactly 100 in exact rational
arithmetic. -/
theorem percentShare_sum_eq_100 (vols : List ℚ) (h : vols.sum ≠ 0) :
    (percentShare vols).sum = 100 := by
  rw [percentShare, sum_map_share, div_self h, one_mul]

/-- Witness for C3 (amended) on the spec's worked volume column. -/
theorem percentShare_sum_eq_100_witness :
    (([100, 200, 300, 400, 500] : List ℚ).sum ≠ 0) ∧
      (percentShare [100, 200, 300, 400, 500]).sum = 100 :=
  ⟨by norm_num, percentShare_sum_eq_100 [100, 200, 300, 400, 500] (by norm_num)⟩

/-- C6: on the summary set with total_volume = [100,200,300,400,500], the
volume shares as prepared for the bar view — sorted descending and rounded
to two decimals for the bar text — are [33.33, 26.67, 20.00, 13.33, 6.67]. -/
theorem volume_shares_concrete :
    (tab3Spec (renderTab3 ⟨exRows5, true⟩ [])).map (fun s => s.text) =
      some [3333/100, 2667/100, 20, 1333/100, 667/100] := by
  norm_num [tab3Spec, renderTab3, TopFrame.col, exRows5, mkRow, addPercent,
    percentShare, sort_values_percent_desc, List.insertionSort,
    List.orderedInsert, barSpecOf, round2, round_eq, List.zip, List.zipWith,
    Bind.bind, Except.bind, Pure.pure, Except.pure, List.isEmpty]

/-- C5, counterexample: a successful (HTTP 200) OHLC fetch whose JSON rows
arrive in descending timestamp order yields a frame whose timestamps are
not ascending — `get_ohlc_data` never sorts. -/
theorem ohlc_not_sorted_counterexample :
    ((get_ohlc_data ⟨200, [((2000 : ℤ), 1, 1, 1, 1), ((1000 : ℤ), 1, 1, 1, 1)]⟩).map
        (fun p => p.timestamp) = [2000000000, 1000000000]) ∧
      ¬ List.Sorted (· ≤ ·)
        ((get_ohlc_data ⟨200, [((2000 : ℤ), 1, 1, 1, 1), ((1000 : ℤ), 1, 1, 1, 1)]⟩).map
          (fun p => p.timestamp)) := by
  constructor
  · norm_num [get_ohlc_data, to_datetime_ms]
  · norm_num [get_ohlc_data, to_datetime_ms, List.Sorted, List.sorted_cons]

/-- C5 (amended): for every successful OHLC fetch, `get_ohlc_data`
preserves the upstream row order — the output timestamps are exactly the
converted input timestamps, in order — so the sequence is ascending by
timestamp iff the upstream JSON rows were already ascending. -/
theorem get_ohlc_data_order (resp : HttpResp (List OhlcJsonRow))
    (h : resp.status = 200) :
    ((get_ohlc_data resp).map (fun p => p.timestamp)
        = resp.json.map (fun r => to_datetime_ms r.1)) ∧
      (List.Sorted (· ≤ ·) ((get_ohlc_data resp).map (fun p => p.timestamp)) ↔
        List.Sorted (· ≤ ·) (resp.json.map (fun r => r.1))) := by
  have h1 : (get_ohlc_data resp).map (fun p => p.timestamp)
      = resp.json.map (fun r => to_datetime_ms r.1) := by
    simp [get_ohlc_data, h, List.map_map]
  refine ⟨h1, ?_⟩
  rw [h1]
  unfold List.Sorted
  rw [List.pairwise_map, List.pairwise_map]
  have key : ∀ a b : ℤ, to_datetime_ms a ≤ to_datetime_ms b ↔ a ≤ b := by
    intro a b
    unfold to_datetime_ms
    exact mul_le_mul_right (by norm_num)
  constructor
  · exact fun hp => hp.imp (fun hab => (key _ _).mp hab)
  · exact fun hp => hp.imp (fun hab => (key _ _).mpr hab)

/-- Witness for C5 (amended) on a concrete ascending two-row response. -/
theorem get_ohlc_data_order_witness :
    ((get_ohlc_data ⟨200, [((1000 : ℤ), 1, 1, 1, 1), ((2000 : ℤ), 2, 2, 2, 2)]⟩).map
        (fun p => p.timestamp)
          = [((1000 : ℤ), (1 : ℚ), (1 : ℚ), (1 : ℚ), (1 : ℚ)),
             ((2000 : ℤ), 2, 2, 2, 2)].map (fun r => to_datetime_ms r.1)) ∧
      (List.Sorted (· ≤ ·)
          ((get_ohlc_data ⟨200, [((1000 : ℤ), 1, 1, 1, 1), ((2000 : ℤ), 2, 2, 2, 2)]⟩).map
            (fun p => p.timestamp)) ↔
        List.Sorted (· ≤ ·)
          ([((1000 : ℤ), (1 : ℚ), (1 : ℚ), (1 : ℚ), (1 : ℚ)),
            ((2000 : ℤ), 2, 2, 2, 2)].map (fun r => r.1))) :=
  get_ohlc_data_order ⟨200, [((1000 : ℤ), 1, 1, 1, 1), ((2000 : ℤ), 2, 2, 2, 2)]⟩ rfl

/-- Helper for C7: a forward `find?` by key on an entry list with
duplicate-free keys returns the unique entry carrying that key. -/
theorem find?_key_eq (es : List (String × String)) (k v : String)
    (hnd : (es.map Prod.fst).Nodup) (hmem : (k, v) ∈ es) :
    es.find? (fun e => e.1 = k) = some (k, v) := by
  induction es with
  | nil => simp at hmem
  | cons e es ih =>
    rw [List.map_cons, List.nodup_cons] at hnd
    rcases List.mem_cons.mp hmem with heq | hmem2
    · rw [← heq]
      simp [List.find?]
    · have hkey : ¬(e.1 = k) := by
        intro hk
        exact hnd.1 (hk ▸ List.mem_map.mpr ⟨(k, v), hmem2, rfl⟩)
    -- fall through to the tail
      rw [List.find?_cons]
      simp only [hkey, decide_False]
      exact ih hnd.2 hmem2

/-- Helper for C7: Python dict lookup (last insertion wins) on an entry
list with duplicate-free keys returns the value stored with the key. -/
theorem dictGet_eq_of_nodup_keys (es : List (String × String)) (k v : String)
    (hnd : (es.map Prod.fst).Nodup) (hmem : (k, v) ∈ es) :
    dictGet es k = some v := by
  unfold dictGet
  rw [find?_key_eq es.reverse k v ?_ ?_]
  · rfl
  · rw [List.map_reverse]
    exact List.nodup_reverse.mpr hnd
  · exact List.mem_reverse.mpr hmem

/-- Helper for C7: the colour dict contains the entry pairing the coin at
position `i` with the palette colour at `i` mod 5. -/
theorem buildColors_mem (ids : List String) (i : Nat) (hi : i < ids.length) :
    (ids.get ⟨i, hi⟩, paletteColor i) ∈ buildColors ids := by
  unfold buildColors
  apply List.mem_map.mpr
  refine ⟨(i, ids.get ⟨i, hi⟩), ?_, rfl⟩
  apply List.mk_mem_enum_iff_getElem?.mpr
  simp [List.getElem?_eq_getElem hi]

/-- Helper for C7: the keys of the colour dict entries are exactly the
coin ids, in order. -/
theorem buildColors_keys (ids : List String) :
    (buildColors ids).map Prod.fst = ids := by
  unfold buildColors
  rw [List.map_map]
  have : (Prod.fst ∘ fun p : Nat × String => (p.2, paletteColor p.1))
      = Prod.snd := rfl
  rw [this, List.enum_map_snd]

/-- C7: the bubble-view colour assignment is the deterministic
index-modulo mapping — equal selected-coin lists always produce equal
mappings, and on a duplicate-free coin list the coin at position `i`
receives colour `custom_colors[i % 5]`. -/
theorem color_assignment :
    (∀ ids1 ids2 : List String, ids1 = ids2 → buildColors ids1 = buildColors ids2) ∧
      ∀ ids : List String, ids.Nodup → ∀ i : Nat, ∀ hi : i < ids.length,
        dictGet (buildColors ids) (ids.get ⟨i, hi⟩)
          = some (custom_colors.getD (i % 5) "") := by
  constructor
  · intro ids1 ids2 h
    rw [h]
  · intro ids hnd i hi
    have hp : custom_colors.getD (i % 5) "" = paletteColor i := rfl
    rw [hp]
    apply dictGet_eq_of_nodup_keys
    · rw [buildColors_keys]
      exact hnd
    · exact buildColors_mem ids i hi

/-- Witness for C7 on a concrete three-coin selection: the coin at
position 1 gets the second palette colour. -/
theorem color_assignment_witness :
    dictGet (buildColors ["bitcoin", "ethereum", "tether"])
        (["bitcoin", "ethereum", "tether"].get ⟨1, by norm_num⟩)
      = some (custom_colors.getD (1 % 5) "") :=
  color_assignment.2 ["bitcoin", "ethereum", "tether"] (by decide) 1 (by norm_num)

/-- Helper: the percent-augmented rows are exactly the original rows, in
order, each paired with its share of the volume-column sum. -/
theorem addPercent_eq (rows : List CoinRow) :
    addPercent rows = rows.map (fun x =>
      CoinRowP.mk x
        (x.total_volume / (rows.map (fun r => r.total_volume)).sum * 100)) := by
  unfold addPercent percentShare
  conv_lhs => rw [show rows.zip = (rows.map id).zip by rw [List.map_id]]
  rw [List.map_map, List.zip_map', List.map_map]
  rfl

/-- Helper: with the schema present, tab 3 always succeeds and rebinds
`df_top5` to the percent-augmented, descending-sorted frame. -/
theorem renderTab3_frame (df : TopFrame) (choice : List String)
    (h : df.hasSchema = true) :
    renderTab3 df choice
      = .ok (⟨sort_values_percent_desc (addPercent df.rows), true⟩,
          if (sort_values_percent_desc (addPercent df.rows)).isEmpty then
            Tab3Out.nothing
          else
            Tab3Out.bar
              (barSpecOf (sort_values_percent_desc (addPercent df.rows)) choice)) := by
  by_cases hc : (sort_values_percent_desc (addPercent df.rows)).isEmpty <;>
    simp [renderTab3, TopFrame.col, h, hc, Bind.bind, Except.bind,
      Pure.pure, Except.pure]

/-- Helper: the sorted frame has one row per original row. -/
theorem sorted_length (rows : List CoinRow) :
    (sort_values_percent_desc (addPercent rows)).length = rows.length := by
  unfold sort_values_percent_desc
  rw [(List.perm_insertionSort _ _).length_eq, addPercent_eq, List.length_map]

/-- C4, counterexample: on a two-coin summary set with volumes [100, 200],
running the volume-share tab changes the frame's row order — the rebound
`df_top5` lists coin "b" before coin "a" — so the Coin Summary table is
not immutable during a render pass (a `percent` field is also added). -/
theorem top_frame_immutability_counterexample :
    ((⟨exRows2, true⟩ : TopFrame).rows.map (fun r => r.id) = ["a", "b"]) ∧
      tab3Ids (renderTab3 ⟨exRows2, true⟩ []) = ["b", "a"] := by
  constructor
  · norm_num [exRows2, mkRow]
  · norm_num [tab3Ids, renderTab3, TopFrame.col, exRows2, mkRow, addPercent,
      percentShare, sort_values_percent_desc, List.insertionSort,
      List.orderedInsert, barSpecOf, Bind.bind, Except.bind, Pure.pure,
      Except.pure, List.isEmpty, List.zip, List.zipWith]

/-- C4 (amended): during one render pass the only change to the Coin
Summary table is made by the volume-share tab, which rebinds it to a frame
with an added `percent` field and rows re-sorted descending by that
percentage; the underlying rows and all their original field values are
preserved up to that reordering, and each added percentage is exactly the
row's volume share. -/
theorem coin_summary_tab3_effect (df : TopFrame) (choice : List String)
    (h : df.hasSchema = true) :
    ∃ out frP, renderTab3 df choice = .ok (frP, out) ∧
      (frP.rows.map (fun r => r.base)).Perm df.rows ∧
      List.Sorted (fun a b => b.percent ≤ a.percent) frP.rows ∧
      ∀ r ∈ frP.rows,
        r.percent = r.base.total_volume
          / (df.rows.map (fun x => x.total_volume)).sum * 100 := by
  refine ⟨_, _, renderTab3_frame df choice h, ?_, ?_, ?_⟩
  · have hperm : ((sort_values_percent_desc (addPercent df.rows)).map
          (fun r => r.base)).Perm ((addPercent df.rows).map (fun r => r.base)) :=
      (List.perm_insertionSort _ _).map _
    have h2 : (addPercent df.rows).map (fun r => r.base) = df.rows := by
      rw [addPercent_eq, List.map_map]
      exact List.map_id'' (fun x => rfl) df.rows
    rwa [h2] at hperm
  · haveI : IsTotal CoinRowP (fun a b => b.percent ≤ a.percent) :=
      ⟨fun a b => le_total b.percent a.percent⟩
    haveI : IsTrans CoinRowP (fun a b => b.percent ≤ a.percent) :=
      ⟨fun _ _ _ hab hbc => le_trans hbc hab⟩
    exact List.sorted_insertionSort _ _
  · intro r hr
    have hmem : r ∈ addPercent df.rows :=
      (List.perm_insertionSort _ _).mem_iff.mp hr
    rw [addPercent_eq] at hmem
    obtain ⟨x, _, rfl⟩ := List.mem_map.mp hmem
    rfl

/-- Witness for C4 (amended) on the concrete two-coin frame. -/
theorem coin_summary_tab3_effect_witness :
    ∃ out frP, renderTab3 ⟨exRows2, true⟩ [] = .ok (frP, out) ∧
      (frP.rows.map (fun r => r.base)).Perm exRows2 ∧
      List.Sorted (fun a b => b.percent ≤ a.percent) frP.rows ∧
      ∀ r ∈ frP.rows,
        r.percent = r.base.total_volume
          / (exRows2.map (fun x => x.total_volume)).sum * 100 :=
  coin_summary_tab3_effect ⟨exRows2, true⟩ [] rfl

/-- Helper: with no coins selected, every bar of the volume-share chart is
drawn in the muted colour. -/
theorem barColors_no_selection (l : List CoinRowP) :
    l.map (fun r =>
        if r.base.id ∈ ([] : List String) then "steelblue" else "lightgray")
      = List.replicate l.length "lightgray" := by
  induction l with
  | nil => rfl
  | cons a l ih => simp [ih, List.replicate_succ]

/-- C9: with a non-empty summary set and zero coins selected, the
candlestick and bubble tabs each render only their explicit no-selection
message and no chart, while the bar tab still renders the full top-N set
with every bar in the muted (non-highlight) colour. -/
theorem zero_selection_views (env : Env) (select : List String → List String)
    (days : Nat) (h200 : env.topResp.status = 200)
    (hne : env.topResp.json ≠ []) (hsel : ∀ opts, select opts = []) :
    ∃ page, renderPage env select days = .ok page ∧
      page.tab1
        = Tab1Out.info "Please select at least one coin to see candlestick chart." ∧
      page.tab2
        = Tab2Out.info "Please select at least one coin to view bubble chart." ∧
      ∃ spec, page.tab3 = Tab3Out.bar spec ∧
        spec.markerColor = List.replicate env.topResp.json.length "lightgray" ∧
        spec.x.Perm (env.topResp.json.map (fun r => r.name)) := by
  have hie : env.topResp.json.isEmpty = false := List.isEmpty_eq_false.mpr hne
  have hdf : get_top_coins env.topResp = ⟨env.topResp.json, true⟩ := by
    simp [get_top_coins, h200, TopFrame.ofRecords, hie]
  have hslen : (sort_values_percent_desc (addPercent env.topResp.json)).length
      = env.topResp.json.length := sorted_length _
  have hsne : sort_values_percent_desc (addPercent env.topResp.json) ≠ [] := by
    intro hnil
    rw [hnil] at hslen
    exact hne (List.eq_nil_of_length_eq_zero hslen.symm)
  have ht3 : renderTab3 ⟨env.topResp.json, true⟩ [] =
      .ok (⟨sort_values_percent_desc (addPercent env.topResp.json), true⟩,
        .bar (barSpecOf (sort_values_percent_desc (addPercent env.topResp.json)) [])) := by
    rw [renderTab3_frame _ _ rfl]
    simp [List.isEmpty_eq_true, hsne]
  have ht2 : renderTab2 ⟨env.topResp.json, true⟩ [] =
      .ok (.info "Please select at least one coin to view bubble chart.") := by
    simp [renderTab2, TopFrame.col, Bind.bind, Except.bind, Pure.pure, Except.pure]
  have hopts : env.topResp.json.map (fun r => r.id) ≠ [] := by
    simpa using hne
  obtain ⟨x0, hx0⟩ : ∃ x, headE (env.topResp.json.map (fun r => r.id)) = .ok x := by
    cases hl : env.topResp.json.map (fun r => r.id) with
    | nil => exact absurd hl hopts
    | cons a t => exact ⟨a, rfl⟩
  have hpage : renderPage env select days = .ok
      ⟨env.topResp.json, env.topResp.json.map (fun r => r.id), [],
        Tab1Out.info "Please select at least one coin to see candlestick chart.",
        Tab2Out.info "Please select at least one coin to view bubble chart.",
        Tab3Out.bar (barSpecOf (sort_values_percent_desc (addPercent env.topResp.json)) []),
        ⟨sort_values_percent_desc (addPercent env.topResp.json), true⟩⟩ := by
    simp [renderPage, hdf, TopFrame.col, TopFrame.isEmpty, hie, hx0, hsel,
      ht2, ht3, renderTab1, Bind.bind, Except.bind, Pure.pure, Except.pure]
  refine ⟨_, hpage, rfl, rfl,
    barSpecOf (sort_values_percent_desc (addPercent env.topResp.json)) [],
    rfl, ?_, ?_⟩
  · show (sort_values_percent_desc (addPercent env.topResp.json)).map _
      = List.replicate env.topResp.json.length "lightgray"
    rw [barColors_no_selection, hslen]
  · have hperm : ((sort_values_percent_desc (addPercent env.topResp.json)).map
          (fun r => r.base.name)).Perm
        ((addPercent env.topResp.json).map (fun r => r.base.name)) :=
      (List.perm_insertionSort _ _).map _
    have h2 : (addPercent env.topResp.json).map (fun r => r.base.name)
        = env.topResp.json.map (fun r => r.name) := by
      rw [addPercent_eq, List.map_map]
      rfl
    rwa [h2] at hperm

/-- Witness for C9 on a concrete two-coin summary and the empty
selection. -/
theorem zero_selection_views_witness :
    ∃ page,
      renderPage ⟨⟨200, exRows2⟩, fun _ _ => ⟨200, []⟩⟩ (fun _ => []) 30 = .ok page ∧
      page.tab1
        = Tab1Out.info "Please select at least one coin to see candlestick chart." ∧
      page.tab2
        = Tab2Out.info "Please select at least one coin to view bubble chart." ∧
      ∃ spec, page.tab3 = Tab3Out.bar spec ∧
        spec.markerColor
          = List.replicate (⟨200, exRows2⟩ : HttpResp (List CoinRow)).json.length
              "lightgray" ∧
        spec.x.Perm
          ((⟨200, exRows2⟩ : HttpResp (List CoinRow)).json.map (fun r => r.name)) :=
  zero_selection_views ⟨⟨200, exRows2⟩, fun _ _ => ⟨200, []⟩⟩ (fun _ => []) 30
    rfl (by simp [exRows2]) (fun _ => rfl)

/-- Helper for C1: an empty Coin Summary frame — whether from a non-200
status or from an empty 200 body — has no columns. -/
theorem empty_top_frame_no_schema (resp : HttpResp (List CoinRow))
    (h : (get_top_coins resp).isEmpty = true) :
    (get_top_coins resp).hasSchema = false := by
  unfold get_top_coins TopFrame.ofRecords TopFrame.emptyFrame at h ⊢
  split at h <;> simp_all [TopFrame.isEmpty]

/-- C1 (refuted; the code crashes): when the top-coins summary fetch
returns an empty frame, the page render does **not** degrade to a
no-data state — evaluating the multiselect options
`df_top5["id"].tolist()` (src/app_final.py:105) raises `KeyError "id"`
on the column-less empty frame, so the sidebar filter and both remaining
tabs never complete. -/
theorem empty_summary_raises_keyerror (env : Env)
    (select : List String → List String) (days : Nat)
    (h : (get_top_coins env.topResp).isEmpty = true) :
    renderPage env select days = .error (.keyError "id") := by
  have hs : (get_top_coins env.topResp).hasSchema = false :=
    empty_top_frame_no_schema env.topResp h
  simp [renderPage, TopFrame.col, hs, Bind.bind, Except.bind]

/-- Witness for C1's failing input: a rate-limited (HTTP 429) top-coins
response makes the whole page render raise `KeyError "id"`. -/
theorem empty_summary_raises_keyerror_witness :
    renderPage ⟨⟨429, []⟩, fun _ _ => ⟨429, []⟩⟩ (fun l => l) 30
      = .error (.keyError "id") :=
  empty_summary_raises_keyerror ⟨⟨429, []⟩, fun _ _ => ⟨429, []⟩⟩ (fun l => l) 30 rfl

/-- C10: no execution of the page render ever issues a market-chart
request — `get_market_chart` is dead code at the public surface; the only
requests a render can issue are the top-coins listing and per-coin OHLC
fetches. -/
theorem market_chart_never_requested (env : Env)
    (select : List String → List String) (days : Nat) (c : String) (d : Nat) :
    Request.marketChart c d ∉ renderRequests env select days := by
  intro hmem
  unfold renderRequests at hmem
  rcases List.mem_cons.mp hmem with h1 | h2
  · exact Request.noConfusion h1
  · revert h2
    cases (get_top_coins env.topResp).col (fun r => r.id) "id" with
    | error e => simp
    | ok options =>
      by_cases ho : options.isEmpty <;> simp [ho]

end CryptoDash
